import Mathlib

/-!
Verification of the iAngel-CyberIDE neural core pipeline.

Shallow embedding of the Python modules `neural_cli/models.py`,
`neural_cli/metric_calculator.py`, `neural_cli/regression_detector.py`,
`neural_cli/file_watcher.py` and `neural_cli/main.py`.  Machine floats are
modelled as rationals; wall-clock instants are rationals; filesystem and
environment probes are explicit records of the facts the Python code reads.
-/

namespace NeuralCore

/-- Status levels for brain regions (`models.RegionStatus`). -/
inductive RegionStatus
  | healthy
  | warning
  | error
  | offline
deriving DecidableEq, Repr

/-- String value of a `RegionStatus`, mirroring the Python `str` Enum values. -/
def RegionStatus.value : RegionStatus → String
  | .healthy => "healthy"
  | .warning => "warning"
  | .error => "error"
  | .offline => "offline"

/-- Diagnostic severity levels (`models.DiagnosticLevel`). -/
inductive DiagnosticLevel
  | caution
  | alert
deriving DecidableEq, Repr

/-- Brain region record (`models.BrainRegion`).  `last_modified` is an optional
instant, always populated by the metric calculator. -/
structure BrainRegion where
  status : RegionStatus
  coverage : ℚ
  test_count : ℕ
  passing_tests : ℕ
  failing_tests : ℕ
  file_count : ℕ
  last_modified : Option ℚ
deriving DecidableEq, Repr

/-- Pydantic validator `BrainRegion.validate_coverage`: clamp to [0, 100] with a
logged warning (logging is not modelled). -/
def validate_coverage (v : ℚ) : ℚ :=
  if v < 0 then 0
  else if v > 100 then 100
  else v

/-- Construction of a `BrainRegion` through Pydantic, which runs the coverage
validator on the supplied value. -/
def mkBrainRegion (status : RegionStatus) (coverage : ℚ) (test_count passing_tests
    failing_tests file_count : ℕ) (last_modified : Option ℚ) : BrainRegion :=
  { status := status
    coverage := validate_coverage coverage
    test_count := test_count
    passing_tests := passing_tests
    failing_tests := failing_tests
    file_count := file_count
    last_modified := last_modified }

/-- Diagnostic message (`models.Diagnostic`).  The optional file path and line
number are never set by the metric calculator and are omitted. -/
structure Diagnostic where
  level : DiagnosticLevel
  region : String
  message : String
  details : Option String
  timestamp : ℚ
deriving DecidableEq, Repr

/-- Pydantic validator `NeuralStatus.validate_illumination`: clamp to [0, 1]
with a logged warning (logging is not modelled). -/
def validate_illumination (v : ℚ) : ℚ :=
  if v < 0 then 0
  else if v > 1 then 1
  else v

/-- Root snapshot (`models.NeuralStatus`).  The `regions` map is an association
list in Python-dict insertion order. -/
structure NeuralStatus where
  illumination : ℚ
  regions : List (String × BrainRegion)
  diagnostics : List Diagnostic
  timestamp : ℚ
  project_name : String
  version : String
  has_license : Bool
  has_readme : Bool
  documentation_complete : Bool
  api_configured : Bool
  mcp_providers_count : ℕ
deriving DecidableEq, Repr

/-- Default-constructed `NeuralStatus()`: all Pydantic defaults, in particular
an empty `regions` dict and empty diagnostics.  The default timestamp (wall
clock now) is modelled as 0. -/
def defaultNeuralStatus : NeuralStatus :=
  { illumination := 0
    regions := []
    diagnostics := []
    timestamp := 0
    project_name := "CyberIDE"
    version := "1.0.0"
    has_license := false
    has_readme := false
    documentation_complete := false
    api_configured := false
    mcp_providers_count := 0 }

/-- Project metrics record (`models.ProjectMetrics`). -/
structure ProjectMetrics where
  total_files : ℕ
  test_coverage : ℚ
  documentation_score : ℚ
  module_completion : ℚ
  integration_score : ℚ
  overall_health : ℚ
deriving DecidableEq, Repr

/-- Pydantic validator `ProjectMetrics.validate_percentage`: clamp each
percentage field to [0, 100]. -/
def validate_percentage (v : ℚ) : ℚ :=
  if v < 0 then 0
  else if v > 100 then 100
  else v

/-- Construction of `ProjectMetrics` through Pydantic, which runs the
percentage validator on the five bounded fields. -/
def mkProjectMetrics (total_files : ℕ) (test_coverage documentation_score
    module_completion integration_score overall_health : ℚ) : ProjectMetrics :=
  { total_files := total_files
    test_coverage := validate_percentage test_coverage
    documentation_score := validate_percentage documentation_score
    module_completion := validate_percentage module_completion
    integration_score := validate_percentage integration_score
    overall_health := validate_percentage overall_health }

/-- Run-level test results dictionary passed to the calculator
(`test_results` with keys `total`, `passed`, `failed`). -/
structure TestResults where
  total : ℕ
  passed : ℕ
  failed : ℕ
deriving DecidableEq, Repr

/-- File counts per region (`file_counts` dictionary with keys `frontend`,
`backend`, `tests`, `data`; absent keys read as 0). -/
structure FileCounts where
  frontend : ℕ
  backend : ℕ
  tests : ℕ
  data : ℕ
deriving DecidableEq, Repr

/-- One region of a previously persisted `neural_status.json`, as read by
`MetricCalculator._check_production_ready` (only `failing_tests` and
`test_count` are consulted, with `.get` defaults of 0). -/
structure PersistedRegion where
  failing_tests : ℕ
  test_count : ℕ
deriving DecidableEq, Repr

/-- Filesystem, environment and persisted-state facts consumed by
`MetricCalculator`.  Each field records the result of one probe the Python
code performs. -/
structure FsProbe where
  readme_large : Bool
  has_LICENSE : Bool
  has_LICENSE_md : Bool
  has_README_md : Bool
  has_CLAUDE_md : Bool
  has_api_docs : Bool
  has_setup_guide : Bool
  has_package_json : Bool
  has_requirements_txt : Bool
  has_vite_config : Bool
  api_configured : Bool
  mcp_providers_count : ℕ
  md_file_count : ℕ
  persisted_regions : Option (List (String × PersistedRegion))
deriving DecidableEq, Repr

/-- Embedding of `MetricCalculator._calculate_documentation_score`. -/
def calculate_documentation_score (p : FsProbe) : ℚ :=
  let s : ℚ := 0
  let s := if p.readme_large then s + 30 else s
  let s := if p.has_LICENSE || p.has_LICENSE_md then s + 20 else s
  let s := if p.has_CLAUDE_md then s + 20 else s
  let s := if p.has_api_docs then s + 15 else s
  let s := if p.has_setup_guide then s + 15 else s
  min s 100

/-- Embedding of `MetricCalculator._calculate_module_completion`. -/
def calculate_module_completion (p : FsProbe) (fc : FileCounts) : ℚ :=
  let s : ℚ := 0
  let s := if fc.frontend > 0 then s + 25 else s
  let s := if fc.backend > 0 then s + 25 else s
  let s := if fc.tests > 0 then s + 30 else s
  let existing_configs : ℕ :=
    (if p.has_package_json then 1 else 0) +
    (if p.has_requirements_txt then 1 else 0) +
    (if p.has_vite_config then 1 else 0)
  let s := s + ((existing_configs : ℚ) / 3) * 20
  min s 100

/-- Embedding of `MetricCalculator._count_mcp_providers` (the provider count is
a probe fact). -/
def count_mcp_providers (p : FsProbe) : ℕ :=
  p.mcp_providers_count

/-- Embedding of `MetricCalculator._check_api_configured` (the combined
environment, `.env` and status-file check is a probe fact). -/
def check_api_configured (p : FsProbe) : Bool :=
  p.api_configured

/-- Embedding of `MetricCalculator._calculate_integration_score`. -/
def calculate_integration_score (p : FsProbe) : ℚ :=
  let s : ℚ := 0
  let s := if check_api_configured p then s + 50 else s
  let mcp_count := count_mcp_providers p
  let s := if mcp_count > 0 then s + min ((mcp_count : ℚ) * 15) 50 else s
  min s 100

/-- Embedding of `MetricCalculator._check_production_ready`: read the persisted
status file; `none` models a missing or unparsable file (the `except` branch
returns `False`). -/
def check_production_ready (p : FsProbe) : Bool :=
  match p.persisted_regions with
  | none => false
  | some regions =>
    if regions.any (fun r => r.2.failing_tests > 0) then false
    else decide (0 < (regions.map (fun r => r.2.test_count)).sum)

/-- Embedding of `MetricCalculator._calculate_metrics`. -/
def calculate_metrics (p : FsProbe) (test_coverage : ℚ) (_tr : TestResults)
    (fc : FileCounts) : ProjectMetrics :=
  let coverage_metric := test_coverage
  let doc_score := calculate_documentation_score p
  let module_score := calculate_module_completion p fc
  let integration_score := calculate_integration_score p
  let overall_health :=
    coverage_metric * (35 / 100) +
    doc_score * (15 / 100) +
    module_score * (25 / 100) +
    integration_score * (15 / 100)
  mkProjectMetrics (fc.frontend + fc.backend + fc.tests + fc.data)
    coverage_metric doc_score module_score integration_score overall_health

/-- Embedding of `MetricCalculator._calculate_illumination`. -/
def calculate_illumination (p : FsProbe) (metrics : ProjectMetrics) : ℚ :=
  let base := metrics.overall_health
  let base := if check_production_ready p then base + 10 else base
  min (base / 100) 1

/-- Embedding of `MetricCalculator._determine_region_status`. -/
def determine_region_status (coverage : ℚ) (tr : TestResults) : RegionStatus :=
  if tr.failed > 0 then .error
  else if coverage < 50 then .warning
  else if coverage < 80 then .healthy
  else .healthy

/-- Embedding of `MetricCalculator._create_regions` with the wall-clock instant
`now` made explicit (the Python code calls `datetime.now` for each region's
`last_modified`). -/
def create_regions (p : FsProbe) (tr : TestResults) (fc : FileCounts)
    (test_coverage : ℚ) (now : ℚ) : List (String × BrainRegion) :=
  let ui_files := fc.frontend
  let core_files := fc.backend
  let data_files := fc.data
  let test_files := fc.tests
  let doc_score := calculate_documentation_score p
  let integration_score := calculate_integration_score p
  [ ("ui-components",
      mkBrainRegion (determine_region_status test_coverage tr)
        (if ui_files > 0 then test_coverage else 0)
        tr.total tr.passed tr.failed ui_files (some now)),
    ("core-logic",
      mkBrainRegion (determine_region_status test_coverage tr)
        (if core_files > 0 then test_coverage else 0)
        tr.total tr.passed tr.failed core_files (some now)),
    ("data-layer",
      mkBrainRegion (if data_files > 0 then .healthy else .offline)
        (if data_files > 0 then test_coverage else 0)
        tr.total tr.passed tr.failed data_files (some now)),
    ("tests",
      mkBrainRegion (determine_region_status test_coverage tr)
        test_coverage tr.total tr.passed tr.failed test_files (some now)),
    ("documentation",
      mkBrainRegion (if doc_score ≥ 80 then .healthy else .warning)
        doc_score 0 0 0 p.md_file_count (some now)),
    ("api-integration",
      mkBrainRegion (if integration_score ≥ 50 then .healthy else .offline)
        integration_score 0 0 0 (count_mcp_providers p) (some now)) ]

/-- Embedding of `MetricCalculator._generate_diagnostics` with the wall-clock
instant `now` explicit (each `Diagnostic` stamps `datetime.now`). -/
def generate_diagnostics (metrics : ProjectMetrics) (tr : TestResults)
    (now : ℚ) : List Diagnostic :=
  (if tr.failed > 0 then
    [{ level := .alert
       region := "tests"
       message := "ALERT: " ++ toString tr.failed ++ " test(s) failing"
       details := some "Immediate attention required. Tests must pass for production readiness."
       timestamp := now }]
  else []) ++
  (if metrics.test_coverage < 50 then
    [{ level := .caution
       region := "tests"
       message := "CAUTION: Low test coverage"
       details := some "Medium risk. Aim for at least 80% coverage."
       timestamp := now }]
  else []) ++
  (if metrics.documentation_score < 60 then
    [{ level := .caution
       region := "documentation"
       message := "CAUTION: Incomplete documentation"
       details := some "Missing critical documentation files (README, LICENSE, or API docs)."
       timestamp := now }]
  else []) ++
  (if metrics.integration_score < 30 then
    [{ level := .caution
       region := "integration"
       message := "CAUTION: API/MCP not configured"
       details := some "No external integrations detected. Configure API keys or MCP providers."
       timestamp := now }]
  else [])

/-- Embedding of `MetricCalculator.calculate_neural_status` with the wall-clock
instant explicit. -/
def calculate_neural_status (p : FsProbe) (test_coverage : ℚ)
    (tr : TestResults) (fc : FileCounts) (now : ℚ) : NeuralStatus :=
  let metrics := calculate_metrics p test_coverage tr fc
  let regions := create_regions p tr fc test_coverage now
  let illumination := calculate_illumination p metrics
  let diagnostics := generate_diagnostics metrics tr now
  { illumination := validate_illumination illumination
    regions := regions
    diagnostics := diagnostics
    timestamp := now
    project_name := "CyberIDE"
    version := "1.0.0"
    has_license := p.has_LICENSE
    has_readme := p.has_README_md
    documentation_complete := decide (metrics.documentation_score ≥ 80)
    api_configured := check_api_configured p
    mcp_providers_count := count_mcp_providers p }

/-- Debounce state of `file_watcher.NeuralFileHandler`: the `last_event_time`
dictionary is modelled as a total function with the Python `.get(path, 0)`
default baked in. -/
structure HandlerState where
  last_event_time : String → ℚ
  debounce_seconds : ℚ

/-- Embedding of `NeuralFileHandler.should_debounce`: returns the decision and
the updated state (only acceptance records the event time). -/
def should_debounce (st : HandlerState) (path : String) (now : ℚ) :
    Bool × HandlerState :=
  if now - st.last_event_time path < st.debounce_seconds then
    (true, st)
  else
    (false, { st with last_event_time :=
        fun p => if p = path then now else st.last_event_time p })

/-- Delivered (non-directory, non-ignored) events for a stream of raw file
events, each a path with its wall-clock instant, as produced by the
`on_created` and `on_modified` handlers: an event is surfaced exactly when
`should_debounce` returns `False`. -/
def processEvents (st : HandlerState) : List (String × ℚ) → List (String × ℚ)
  | [] => []
  | (path, now) :: rest =>
    let r := should_debounce st path now
    if r.1 then processEvents r.2 rest
    else (path, now) :: processEvents r.2 rest

/-- Test-run triggers (`regression/main.py`): the manual HTTP endpoint and the
file-change handler. -/
inductive RunTrigger
  | manual
  | fileChange
deriving DecidableEq, Repr

/-- Response of the `POST /tests/run` endpoint (`main.run_tests`):
`alreadyRunning` is the HTTP 409 branch. -/
inductive RunResponse
  | initiated
  | alreadyRunning
deriving DecidableEq, Repr

/-- Coordinator events on the single asyncio event loop: a run request (from
either trigger) reaching the `run_tests_and_update` check, or completion of the
in-flight run (the `finally` clause), successful or not. -/
inductive CoordEvent
  | request (t : RunTrigger)
  | complete (success : Bool)
deriving DecidableEq, Repr

/-- Coordinator state: the `neural_core.test_running` flag plus a ghost count
of external test-runner executions currently in flight. -/
structure CoordState where
  test_running : Bool
  active_runs : ℕ
deriving DecidableEq, Repr

/-- Initial coordinator state: not running. -/
def initCoordState : CoordState :=
  { test_running := false, active_runs := 0 }

/-- Embedding of the `main.run_tests` HTTP endpoint's response: 409 when the
running flag is set, otherwise the run task is created. -/
def run_tests_endpoint (st : CoordState) : RunResponse :=
  if st.test_running then .alreadyRunning else .initiated

/-- One coordinator step: `run_tests_and_update` returns immediately if
`test_running` is set, else sets the flag and invokes the external runner;
completion clears the flag in a `finally` clause regardless of success. -/
def coordStep (st : CoordState) : CoordEvent → CoordState
  | .request _ =>
    if st.test_running then st
    else { test_running := true, active_runs := st.active_runs + 1 }
  | .complete _ =>
    { test_running := false, active_runs := st.active_runs - 1 }

/-- Whether a coordinator event starts an execution of the external runner. -/
def startsRunner (st : CoordState) : CoordEvent → Bool
  | .request _ => !st.test_running
  | .complete _ => false

/-- Coordinator state after a trace of events from the initial state. -/
def coordTrace (events : List CoordEvent) : CoordState :=
  events.foldl coordStep initCoordState

/-- Python slice `l[-m:]` for a natural `m`: for `m = 0` it is the whole list
(a Python quirk of `-0`), otherwise the last `m` elements. -/
def pyTakeLast {α : Type} (m : ℕ) (l : List α) : List α :=
  if m = 0 then l else l.drop (l.length - m)

/-- Embedding of `RegressionDetector.save_snapshot` on a loaded history:
append the serialized status, then keep a rolling window of at most
`max_history` entries. -/
def save_snapshot {α : Type} (max_history : ℕ) (history : List α) (s : α) :
    List α :=
  let h := history ++ [s]
  if max_history < h.length then pyTakeLast max_history h else h

/-- Fields of a historical region dictionary read by the regression detector
(`.get` defaults: coverage 0.0, status "offline", failing_tests 0). -/
structure LastRegion where
  coverage : ℚ
  status : String
  failing_tests : ℕ
deriving DecidableEq, Repr

/-- Fields of a historical snapshot dictionary read by the regression
detector. -/
structure LastData where
  illumination : ℚ
  regions : List (String × LastRegion)
deriving DecidableEq, Repr

/-- Regression alert record (`regression_detector.RegressionAlert`). -/
structure RegressionAlert where
  metric : String
  old_value : ℚ
  new_value : ℚ
  severity : String
  message : String
  region : Option String
deriving DecidableEq, Repr

/-- Embedding of `RegressionDetector._is_status_worse`: the status hierarchy
with unknown strings mapped to 0. -/
def status_hierarchy (s : String) : ℕ :=
  if s = "healthy" then 3
  else if s = "warning" then 2
  else if s = "error" then 1
  else 0

/-- Decide whether `current` is strictly worse than `last` in the hierarchy. -/
def is_status_worse (current last : String) : Bool :=
  status_hierarchy current < status_hierarchy last

/-- Embedding of `RegressionDetector._check_illumination_regression` with the
configured threshold 0.1 and the critical cutoff 0.2. -/
def check_illumination_regression (current : NeuralStatus) (last : LastData) :
    List RegressionAlert :=
  let drop := last.illumination - current.illumination
  if drop > 1 / 10 then
    [{ metric := "illumination"
       old_value := last.illumination
       new_value := current.illumination
       severity := if drop > 2 / 10 then "critical" else "moderate"
       message := "Overall health dropped " ++ toString drop
       region := some "overall" }]
  else []

/-- Embedding of the per-region body of
`RegressionDetector._check_region_regressions` for one current region already
matched with its historical counterpart. -/
def region_regression_alerts (name : String) (region : BrainRegion)
    (last : LastRegion) : List RegressionAlert :=
  let coverage_drop := last.coverage - region.coverage
  (if coverage_drop > 10 then
    [{ metric := "coverage"
       old_value := last.coverage
       new_value := region.coverage
       severity := "moderate"
       message := "Coverage dropped in " ++ name
       region := some name }]
  else if coverage_drop > 2 then
    [{ metric := "coverage"
       old_value := last.coverage
       new_value := region.coverage
       severity := "minor"
       message := "Slight coverage drop in " ++ name
       region := some name }]
  else []) ++
  (if is_status_worse region.status.value last.status then
    [{ metric := "status"
       old_value := 0
       new_value := 1
       severity := "moderate"
       message := "Status degraded in " ++ name
       region := some name }]
  else [])

/-- Embedding of `RegressionDetector._check_region_regressions`: regions absent
from the historical snapshot are skipped. -/
def check_region_regressions (current : NeuralStatus) (last : LastData) :
    List RegressionAlert :=
  (current.regions.map (fun kv =>
    match last.regions.lookup kv.1 with
    | none => []
    | some lr => region_regression_alerts kv.1 kv.2 lr)).flatten

/-- Embedding of `RegressionDetector._check_test_regressions`. -/
def check_test_regressions (current : NeuralStatus) (last : LastData) :
    List RegressionAlert :=
  (current.regions.map (fun kv =>
    match last.regions.lookup kv.1 with
    | none => []
    | some lr =>
      if kv.2.failing_tests > lr.failing_tests then
        [{ metric := "failing_tests"
           old_value := (lr.failing_tests : ℚ)
           new_value := (kv.2.failing_tests : ℚ)
           severity := "critical"
           message := "NEW TEST FAILURES in " ++ kv.1
           region := some kv.1 }]
      else [])).flatten

/-- Embedding of `RegressionDetector.detect_regressions` on a loaded history:
empty history yields no alerts, otherwise the current status is compared with
the most recent snapshot. -/
def detect_regressions (history : List LastData) (current : NeuralStatus) :
    List RegressionAlert :=
  match history.getLast? with
  | none => []
  | some last =>
    check_illumination_regression current last ++
    check_region_regressions current last ++
    check_test_regressions current last

/-- States of the on-disk `neural_history.json` file as distinguished by
`RegressionDetector._load_history`: missing, raising on read or parse,
parsing to a non-list JSON value, or parsing to a list of snapshots. -/
inductive HistoryFile
  | missing
  | unreadable
  | nonList
  | listVal (l : List LastData)
deriving DecidableEq, Repr

/-- Embedding of `RegressionDetector._load_history`: every failure mode is
treated as an empty history. -/
def load_history : HistoryFile → List LastData
  | .missing => []
  | .unreadable => []
  | .nonList => []
  | .listVal l => l

/-- States of the on-disk `neural_status.json` file as distinguished by
`NeuralCore.load_status` in `main.py`. -/
inductive StatusFile
  | missing
  | corrupt
  | parsed (s : NeuralStatus)
deriving DecidableEq, Repr

/-- Embedding of `NeuralCore.load_status`: return the parsed status, or a
default-constructed `NeuralStatus()` when the file is absent or fails to
load. -/
def load_status : StatusFile → NeuralStatus
  | .missing => defaultNeuralStatus
  | .corrupt => defaultNeuralStatus
  | .parsed s => s

/-- The six fixed region keys, in construction order. -/
def sixRegionKeys : List String :=
  ["ui-components", "core-logic", "data-layer", "tests",
   "documentation", "api-integration"]

/-- Erase the time stamp of a region map entry. -/
def stripRegionTime (kv : String × BrainRegion) : String × BrainRegion :=
  (kv.1, { kv.2 with last_modified := none })

/-- Erase the time stamp of a diagnostic. -/
def stripDiagnosticTime (d : Diagnostic) : Diagnostic :=
  { d with timestamp := 0 }

/-- Erase every wall-clock field of a status: the top-level timestamp, each
region's `last_modified` and each diagnostic's `timestamp`. -/
def stripTimes (s : NeuralStatus) : NeuralStatus :=
  { s with
    timestamp := 0
    regions := s.regions.map stripRegionTime
    diagnostics := s.diagnostics.map stripDiagnosticTime }

/-- Equality of two statuses in every field except the top-level `timestamp`;
in particular the regions (with their `last_modified` stamps) and the
diagnostics (with their `timestamp` stamps) must agree. -/
def eqExceptTimestamp (a b : NeuralStatus) : Prop :=
  a.illumination = b.illumination ∧
  a.regions = b.regions ∧
  a.diagnostics = b.diagnostics ∧
  a.project_name = b.project_name ∧
  a.version = b.version ∧
  a.has_license = b.has_license ∧
  a.has_readme = b.has_readme ∧
  a.documentation_complete = b.documentation_complete ∧
  a.api_configured = b.api_configured ∧
  a.mcp_providers_count = b.mcp_providers_count

/-- Probe for an empty project: no documentation, no configuration, no
persisted status file. -/
def probeZero : FsProbe :=
  { readme_large := false
    has_LICENSE := false
    has_LICENSE_md := false
    has_README_md := false
    has_CLAUDE_md := false
    has_api_docs := false
    has_setup_guide := false
    has_package_json := false
    has_requirements_txt := false
    has_vite_config := false
    api_configured := false
    mcp_providers_count := 0
    md_file_count := 0
    persisted_regions := none }

/-- Scenario A probe: all five documentation checklist items present, all
three config files present, API configured, two integration providers, and a
persisted prior status with tests recorded and none failing. -/
def scenarioA_probe : FsProbe :=
  { readme_large := true
    has_LICENSE := true
    has_LICENSE_md := false
    has_README_md := true
    has_CLAUDE_md := true
    has_api_docs := true
    has_setup_guide := true
    has_package_json := true
    has_requirements_txt := true
    has_vite_config := true
    api_configured := true
    mcp_providers_count := 2
    md_file_count := 3
    persisted_regions := some [("tests", { failing_tests := 0, test_count := 5 })] }

/-- Scenario A test outcome: five tests, all passing. -/
def scenarioA_tests : TestResults :=
  { total := 5, passed := 5, failed := 0 }

/-- Scenario A file counts: frontend, backend and test files all present. -/
def scenarioA_files : FileCounts :=
  { frontend := 10, backend := 8, tests := 5, data := 2 }

/-- Historical snapshot used to exercise the regression detector: illumination
one half, one healthy `tests` region at 80 percent coverage, no failures. -/
def baselineSnapshot : LastData :=
  { illumination := 1 / 2
    regions := [("tests", { coverage := 80, status := "healthy", failing_tests := 0 })] }

/-- Current status used to exercise the regression detector: strictly improved
illumination, same region coverage and status, no failures. -/
def improvedStatus : NeuralStatus :=
  { illumination := 3 / 4
    regions := [("tests",
      { status := .healthy, coverage := 80, test_count := 1, passing_tests := 1,
        failing_tests := 0, file_count := 1, last_modified := none })]
    diagnostics := []
    timestamp := 0
    project_name := "CyberIDE"
    version := "1.0.0"
    has_license := false
    has_readme := false
    documentation_complete := false
    api_configured := false
    mcp_providers_count := 0 }

/-! Helper lemmas shared by the claim theorems. -/

theorem validate_coverage_eq (v : ℚ) :
    validate_coverage v = min (max v 0) 100 := by
  unfold validate_coverage
  split_ifs with h1 h2
  · rw [max_eq_right h1.le, min_eq_left (by norm_num : (0:ℚ) ≤ 100)]
  · rw [max_eq_left (not_lt.mp h1), min_eq_right h2.le]
  · rw [max_eq_left (not_lt.mp h1), min_eq_left (not_lt.mp h2)]

theorem validate_illumination_eq (v : ℚ) :
    validate_illumination v = min (max v 0) 1 := by
  unfold validate_illumination
  split_ifs with h1 h2
  · rw [max_eq_right h1.le, min_eq_left (by norm_num : (0:ℚ) ≤ 1)]
  · rw [max_eq_left (not_lt.mp h1), min_eq_right h2.le]
  · rw [max_eq_left (not_lt.mp h1), min_eq_left (not_lt.mp h2)]

theorem validate_coverage_bounds (v : ℚ) :
    0 ≤ validate_coverage v ∧ validate_coverage v ≤ 100 := by
  rw [validate_coverage_eq]
  exact ⟨le_min (le_max_right v 0) (by norm_num), min_le_right _ _⟩

theorem validate_illumination_bounds (v : ℚ) :
    0 ≤ validate_illumination v ∧ validate_illumination v ≤ 1 := by
  rw [validate_illumination_eq]
  exact ⟨le_min (le_max_right v 0) (by norm_num), min_le_right _ _⟩

theorem validate_coverage_id (x : ℚ) (h0 : 0 ≤ x) (h100 : x ≤ 100) :
    validate_coverage x = x := by
  rw [validate_coverage_eq, max_eq_left h0, min_eq_left h100]

theorem coord_invariant (events : List CoordEvent) :
    (coordTrace events).active_runs =
      (if (coordTrace events).test_running then 1 else 0) := by
  suffices h : ∀ (es : List CoordEvent) (st : CoordState),
      st.active_runs = (if st.test_running then 1 else 0) →
      (es.foldl coordStep st).active_runs =
        (if (es.foldl coordStep st).test_running then 1 else 0) by
    exact h events initCoordState rfl
  intro es
  induction es with
  | nil => intro st hst; exact hst
  | cons e rest ih =>
    intro st hst
    refine ih (coordStep st e) ?_
    cases e with
    | request t =>
      by_cases hr : st.test_running <;> simp [coordStep, hr, hst]
    | complete s =>
      by_cases hr : st.test_running <;> simp [coordStep, hr, hst]

theorem getLast?_drop_of_lt {α : Type} (l : List α) (k : ℕ) (hk : k < l.length) :
    (l.drop k).getLast? = l.getLast? := by
  conv_rhs => rw [← List.take_append_drop k l]
  rw [List.getLast?_append_of_ne_nil _]
  intro h
  have h2 := List.length_drop k l
  rw [h] at h2
  simp at h2
  omega

theorem pyTakeLast_length {α : Type} (m : ℕ) (l : List α) :
    (pyTakeLast m l).length =
      if m = 0 then l.length else l.length - (l.length - m) := by
  unfold pyTakeLast
  split <;> simp [List.length_drop]

theorem save_snapshot_step_length {α : Type} (m : ℕ) (hm : 1 ≤ m)
    (history : List α) (s : α) : (save_snapshot m history s).length ≤ m := by
  simp only [save_snapshot]
  split
  · rw [pyTakeLast_length]
    split
    · omega
    · simp only [List.length_append, List.length_singleton]; omega
  · next h => simp only [List.length_append, List.length_singleton] at h ⊢; omega

theorem save_snapshot_step_suffix {α : Type} (m : ℕ)
    (history : List α) (s : α) :
    (save_snapshot m history s) <:+ history ++ [s] := by
  simp only [save_snapshot, pyTakeLast]
  split
  · split
    · exact List.suffix_refl _
    · exact List.drop_suffix _ _
  · exact List.suffix_refl _

theorem save_snapshot_step_getLast {α : Type} (m : ℕ) (hm : 1 ≤ m)
    (history : List α) (s : α) :
    (save_snapshot m history s).getLast? = some s := by
  simp only [save_snapshot, pyTakeLast]
  split
  · split
    · omega
    · rw [getLast?_drop_of_lt _ _ (by simp; omega)]
      exact List.getLast?_concat history
  · exact List.getLast?_concat history

theorem save_snapshot_fold_length {α : Type} (m : ℕ) (hm : 1 ≤ m)
    (init : List α) (ss : List α) (hne : ss ≠ []) :
    (ss.foldl (save_snapshot m) init).length ≤ m := by
  induction ss generalizing init with
  | nil => exact absurd rfl hne
  | cons a tail ih =>
    cases tail with
    | nil => exact save_snapshot_step_length m hm init a
    | cons b tb => exact ih (save_snapshot m init a) (by simp)

theorem should_debounce_suppress (st : HandlerState) (path : String) (now : ℚ)
    (h : now - st.last_event_time path < st.debounce_seconds) :
    should_debounce st path now = (true, st) := by
  unfold should_debounce
  rw [if_pos h]

theorem should_debounce_accept (st : HandlerState) (path : String) (now : ℚ)
    (h : st.debounce_seconds ≤ now - st.last_event_time path) :
    should_debounce st path now =
      (false, { st with last_event_time :=
        fun p => if p = path then now else st.last_event_time p }) := by
  unfold should_debounce
  rw [if_neg (not_lt.mpr h)]

theorem processEvents_cons_suppress (st : HandlerState) (path : String)
    (now : ℚ) (rest : List (String × ℚ))
    (h : now - st.last_event_time path < st.debounce_seconds) :
    processEvents st ((path, now) :: rest) = processEvents st rest := by
  simp only [processEvents, should_debounce_suppress st path now h, if_true]

theorem processEvents_cons_accept (st : HandlerState) (path : String)
    (now : ℚ) (rest : List (String × ℚ))
    (h : st.debounce_seconds ≤ now - st.last_event_time path) :
    processEvents st ((path, now) :: rest) =
      (path, now) :: processEvents { st with last_event_time :=
        fun p => if p = path then now else st.last_event_time p } rest := by
  simp only [processEvents, should_debounce_accept st path now h,
    Bool.false_eq_true, if_false]

theorem burst_suppressed (path : String) (ts : List ℚ) :
    ∀ (st : HandlerState),
    (∀ t ∈ ts, t - st.last_event_time path < st.debounce_seconds) →
    processEvents st (ts.map (fun t => (path, t))) = [] := by
  induction ts with
  | nil => intro st _; rfl
  | cons t rest ih =>
    intro st hall
    rw [List.map_cons, processEvents_cons_suppress st path t _ (hall t (by simp))]
    exact ih st (fun x hx => hall x (by simp [hx]))

theorem spaced_delivered (path : String) (ts : List ℚ) :
    ∀ (st : HandlerState) (t0 : ℚ),
    st.debounce_seconds ≤ t0 - st.last_event_time path →
    List.Chain' (fun a b => st.debounce_seconds ≤ b - a) (t0 :: ts) →
    processEvents st ((t0 :: ts).map (fun t => (path, t))) =
      (t0 :: ts).map (fun t => (path, t)) := by
  induction ts with
  | nil =>
    intro st t0 h0 _
    rw [List.map_cons, List.map_nil, processEvents_cons_accept st path t0 _ h0]
    rfl
  | cons t1 rest ih =>
    intro st t0 h0 hchain
    rw [List.chain'_cons] at hchain
    obtain ⟨h01, hchain1⟩ := hchain
    rw [List.map_cons, processEvents_cons_accept st path t0 _ h0]
    rw [List.map_cons]
    congr 1
    rw [← List.map_cons]
    refine ih _ t1 ?_ hchain1
    simp only [if_pos rfl]
    exact h01

theorem region_regression_alerts_nil (name : String) (region : BrainRegion)
    (lr : LastRegion) (hcov : lr.coverage ≤ region.coverage)
    (hst : status_hierarchy lr.status ≤ status_hierarchy region.status.value) :
    region_regression_alerts name region lr = [] := by
  have h1 : ¬ (lr.coverage - region.coverage > 10) := by linarith
  have h2 : ¬ (lr.coverage - region.coverage > 2) := by linarith
  have h3 : is_status_worse region.status.value lr.status = false := by
    unfold is_status_worse
    simp [not_lt.mpr hst]
  simp only [region_regression_alerts, if_neg h1, if_neg h2, h3]
  rfl

/-- C1: for every input to the health scorer, including pathological raw
values, the returned status has `illumination` in [0, 1] and every region's
`coverage` in [0, 100]; the validators correct out-of-range values by clamping
to the nearest bound rather than rejecting them. -/
theorem illumination_and_coverage_always_clamped (p : FsProbe) (cov : ℚ)
    (tr : TestResults) (fc : FileCounts) (now : ℚ) :
    (0 ≤ (calculate_neural_status p cov tr fc now).illumination ∧
      (calculate_neural_status p cov tr fc now).illumination ≤ 1) ∧
    (∀ kv ∈ (calculate_neural_status p cov tr fc now).regions,
      0 ≤ kv.2.coverage ∧ kv.2.coverage ≤ 100) ∧
    (∀ v : ℚ, validate_illumination v = min (max v 0) 1) ∧
    (∀ v : ℚ, validate_coverage v = min (max v 0) 100) := by
  refine ⟨?_, ?_, validate_illumination_eq, validate_coverage_eq⟩
  · exact validate_illumination_bounds _
  · intro kv hkv
    simp only [calculate_neural_status, create_regions, List.mem_cons,
      List.not_mem_nil, or_false] at hkv
    rcases hkv with rfl | rfl | rfl | rfl | rfl | rfl <;>
      exact validate_coverage_bounds _

/-- Witness for C1 at the pathological raw coverage 250 on an empty project:
the scored illumination stays inside [0, 1] and the `tests` region's coverage
stays inside [0, 100]. -/
theorem illumination_and_coverage_always_clamped_witness :
    (0 ≤ (calculate_neural_status probeZero 250 ⟨0, 0, 0⟩ ⟨0, 0, 0, 0⟩ 0).illumination ∧
      (calculate_neural_status probeZero 250 ⟨0, 0, 0⟩ ⟨0, 0, 0, 0⟩ 0).illumination ≤ 1) ∧
    (0 ≤ (mkBrainRegion (determine_region_status 250 ⟨0, 0, 0⟩) 250 0 0 0 0
        (some 0)).coverage ∧
      (mkBrainRegion (determine_region_status 250 ⟨0, 0, 0⟩) 250 0 0 0 0
        (some 0)).coverage ≤ 100) := by
  have h := illumination_and_coverage_always_clamped probeZero 250 ⟨0, 0, 0⟩
    ⟨0, 0, 0, 0⟩ 0
  have hm : ("tests", mkBrainRegion (determine_region_status 250 ⟨0, 0, 0⟩)
      250 0 0 0 0 (some 0)) ∈
      (calculate_neural_status probeZero 250 ⟨0, 0, 0⟩ ⟨0, 0, 0, 0⟩ 0).regions := by
    simp [calculate_neural_status, create_regions]
  exact ⟨h.1, h.2.1 _ hm⟩

/-- C2: under Scenario A inputs the scorer yields a documentation score of
100, module completion of 100, integration score of 80, overall health of
81.75, illumination of 0.9175 (with the production-ready bonus), and an empty
diagnostics list. -/
theorem scenario_a_scores :
    (calculate_metrics scenarioA_probe 85 scenarioA_tests scenarioA_files).documentation_score = 100 ∧
    (calculate_metrics scenarioA_probe 85 scenarioA_tests scenarioA_files).module_completion = 100 ∧
    (calculate_metrics scenarioA_probe 85 scenarioA_tests scenarioA_files).integration_score = 80 ∧
    (calculate_metrics scenarioA_probe 85 scenarioA_tests scenarioA_files).overall_health = 327 / 4 ∧
    (calculate_neural_status scenarioA_probe 85 scenarioA_tests scenarioA_files 0).illumination = 367 / 400 ∧
    (calculate_neural_status scenarioA_probe 85 scenarioA_tests scenarioA_files 0).diagnostics = [] := by
  refine ⟨?_, ?_, ?_, ?_, ?_, ?_⟩ <;>
    simp only [calculate_neural_status, calculate_metrics, mkProjectMetrics,
      validate_percentage, validate_illumination, calculate_illumination,
      calculate_documentation_score, calculate_module_completion,
      calculate_integration_score, check_api_configured, count_mcp_providers,
      check_production_ready, generate_diagnostics, scenarioA_probe,
      scenarioA_tests, scenarioA_files] <;>
    norm_num

/-- C3: while a run is in flight the manual endpoint answers 409 with the
running flag untouched, any request reaching the run check starts no second
runner execution and leaves the state unchanged, completion clears the flag on
success and failure alike, and along every event trace at most one runner
execution is ever in flight. -/
theorem single_flight_coordinator :
    (∀ st : CoordState, st.test_running = true →
      run_tests_endpoint st = RunResponse.alreadyRunning ∧
      (∀ t, coordStep st (CoordEvent.request t) = st ∧
        startsRunner st (CoordEvent.request t) = false)) ∧
    (∀ (st : CoordState) (s : Bool),
      (coordStep st (CoordEvent.complete s)).test_running = false) ∧
    (∀ events : List CoordEvent, (coordTrace events).active_runs ≤ 1) := by
  refine ⟨?_, ?_, ?_⟩
  · intro st h
    refine ⟨by simp [run_tests_endpoint, h],
      fun t => ⟨by simp [coordStep, h], by simp [startsRunner, h]⟩⟩
  · intro st s; rfl
  · intro events
    rw [coord_invariant events]
    split <;> omega

/-- Witness for C3 in the state with a run in flight: the endpoint answers
409, the flag is untouched, no runner starts, completion clears the flag, and
a two-request trace keeps at most one run active. -/
theorem single_flight_coordinator_witness :
    run_tests_endpoint ⟨true, 1⟩ = RunResponse.alreadyRunning ∧
    coordStep ⟨true, 1⟩ (CoordEvent.request .manual) = ⟨true, 1⟩ ∧
    startsRunner ⟨true, 1⟩ (CoordEvent.request .manual) = false ∧
    (coordStep ⟨true, 1⟩ (CoordEvent.complete true)).test_running = false ∧
    (coordTrace [CoordEvent.request .manual,
      CoordEvent.request .fileChange]).active_runs ≤ 1 := by
  have h := single_flight_coordinator
  exact ⟨(h.1 ⟨true, 1⟩ rfl).1, ((h.1 ⟨true, 1⟩ rfl).2 .manual).1,
    ((h.1 ⟨true, 1⟩ rfl).2 .manual).2, h.2.1 ⟨true, 1⟩ true, h.2.2 _⟩

/-- C4: with a positive history bound, one `save_snapshot` keeps the history
within the bound, appends the new snapshot last, evicts only from the oldest
end (the result is a suffix of the old history plus the new entry), and any
nonempty sequence of `save_snapshot` calls from any initial state ends within
the bound. -/
theorem save_snapshot_bounded_fifo (m : ℕ) (hm : 1 ≤ m) :
    (∀ (history : List LastData) (s : LastData),
      (save_snapshot m history s).length ≤ m ∧
      (save_snapshot m history s).getLast? = some s ∧
      (save_snapshot m history s) <:+ history ++ [s]) ∧
    (∀ (init ss : List LastData), ss ≠ [] →
      (ss.foldl (save_snapshot m) init).length ≤ m) := by
  exact ⟨fun history s => ⟨save_snapshot_step_length m hm history s,
      save_snapshot_step_getLast m hm history s,
      save_snapshot_step_suffix m history s⟩,
    fun init ss hne => save_snapshot_fold_length m hm init ss hne⟩

/-- Witness for C4 with the bound 2 and a full two-entry history: the saved
history keeps length 2, ends with the new snapshot, and is a suffix of the
appended list. -/
theorem save_snapshot_bounded_fifo_witness :
    (save_snapshot 2 [baselineSnapshot, baselineSnapshot] baselineSnapshot).length ≤ 2 ∧
    (save_snapshot 2 [baselineSnapshot, baselineSnapshot] baselineSnapshot).getLast? =
      some baselineSnapshot ∧
    (save_snapshot 2 [baselineSnapshot, baselineSnapshot] baselineSnapshot) <:+
      [baselineSnapshot, baselineSnapshot] ++ [baselineSnapshot] ∧
    ([baselineSnapshot].foldl (save_snapshot 2)
      [baselineSnapshot, baselineSnapshot]).length ≤ 2 := by
  have h := save_snapshot_bounded_fifo 2 (by norm_num)
  exact ⟨(h.1 _ _).1, (h.1 _ _).2.1, (h.1 _ _).2.2, h.2 _ _ (by simp)⟩

/-- C5 counterexample: two scoring calls with identical inputs at different
wall-clock instants are not identical outside the top-level `timestamp` field,
because every region's `last_modified` is stamped with the call-time clock. -/
theorem scorer_determinism_counterexample :
    ¬ eqExceptTimestamp
      (calculate_neural_status probeZero 0 ⟨0, 0, 0⟩ ⟨0, 0, 0, 0⟩ 0)
      (calculate_neural_status probeZero 0 ⟨0, 0, 0⟩ ⟨0, 0, 0, 0⟩ 1) := by
  intro h
  have hr := h.2.1
  simp [calculate_neural_status, create_regions, mkBrainRegion] at hr

/-- C5 amended: two scoring calls with identical inputs agree on every field
once all wall-clock stamps are erased — the top-level `timestamp`, each
region's `last_modified`, and each diagnostic's `timestamp`. -/
theorem scorer_deterministic_modulo_timestamps (p : FsProbe) (cov : ℚ)
    (tr : TestResults) (fc : FileCounts) (t1 t2 : ℚ) :
    stripTimes (calculate_neural_status p cov tr fc t1) =
      stripTimes (calculate_neural_status p cov tr fc t2) := by
  simp only [stripTimes, calculate_neural_status, create_regions, mkBrainRegion,
    generate_diagnostics, stripRegionTime, stripDiagnosticTime, List.map_cons,
    List.map_nil, List.map_append, apply_ite (List.map stripDiagnosticTime)]

/-- C6: delivery through the debouncer is characterised by the window — an
event passes iff it is at least `debounce_seconds` after the last accepted
event for its path, suppression leaves the state untouched while acceptance
records the event time; a burst whose later events fall within one window of
an accepted first event delivers exactly that first event; and events spaced
at least one window apart are all delivered. -/
theorem debounce_window_property :
    (∀ (st : HandlerState) (path : String) (now : ℚ),
      ((should_debounce st path now).1 = false ↔
        st.debounce_seconds ≤ now - st.last_event_time path) ∧
      ((should_debounce st path now).1 = true →
        (should_debounce st path now).2 = st) ∧
      ((should_debounce st path now).1 = false →
        (should_debounce st path now).2.last_event_time path = now)) ∧
    (∀ (st : HandlerState) (path : String) (t0 : ℚ) (ts : List ℚ),
      st.debounce_seconds ≤ t0 - st.last_event_time path →
      (∀ t ∈ ts, t - t0 < st.debounce_seconds) →
      processEvents st ((path, t0) :: ts.map (fun t => (path, t))) = [(path, t0)]) ∧
    (∀ (st : HandlerState) (path : String) (t0 : ℚ) (ts : List ℚ),
      st.debounce_seconds ≤ t0 - st.last_event_time path →
      List.Chain' (fun a b => st.debounce_seconds ≤ b - a) (t0 :: ts) →
      processEvents st ((t0 :: ts).map (fun t => (path, t))) =
        (t0 :: ts).map (fun t => (path, t))) := by
  refine ⟨?_, ?_, fun st path t0 ts h0 hc => spaced_delivered path ts st t0 h0 hc⟩
  · intro st path now
    by_cases h : now - st.last_event_time path < st.debounce_seconds
    · rw [should_debounce_suppress st path now h]
      refine ⟨by simp [not_le.mpr h], fun _ => rfl, by simp⟩
    · rw [should_debounce_accept st path now (not_lt.mp h)]
      refine ⟨by simp [not_lt.mp h], by simp, fun _ => by simp⟩
  · intro st path t0 ts h0 hall
    rw [processEvents_cons_accept st path t0 _ h0]
    rw [burst_suppressed path ts _ ?_]
    intro t ht
    simp only [if_pos rfl]
    exact hall t ht

/-- Witness for C6 with a one-second window from the fresh state: an event at
5 is accepted and recorded, a burst at 5, 5.5, 5.9 delivers only the first
event, and events at 1, 2, 3 are all delivered. -/
theorem debounce_window_property_witness :
    (should_debounce { last_event_time := fun _ => 0, debounce_seconds := 1 }
      "a" 5).1 = false ∧
    (should_debounce { last_event_time := fun _ => 0, debounce_seconds := 1 }
      "a" 5).2.last_event_time "a" = 5 ∧
    processEvents { last_event_time := fun _ => 0, debounce_seconds := 1 }
      [("a", 5), ("a", 11 / 2), ("a", 59 / 10)] = [("a", 5)] ∧
    processEvents { last_event_time := fun _ => 0, debounce_seconds := 1 }
      [("a", 1), ("a", 2), ("a", 3)] = [("a", 1), ("a", 2), ("a", 3)] := by
  have h := debounce_window_property
  have hfst := (h.1 ⟨fun _ => 0, 1⟩ "a" 5).1.mpr (by norm_num)
  refine ⟨hfst, (h.1 ⟨fun _ => 0, 1⟩ "a" 5).2.2 hfst, ?_, ?_⟩
  · have hb := h.2.1 ⟨fun _ => 0, 1⟩ "a" 5 [11 / 2, 59 / 10] (by norm_num)
      (by intro t ht; simp at ht; rcases ht with rfl | rfl <;> norm_num)
    simpa using hb
  · have hs := h.2.2 ⟨fun _ => 0, 1⟩ "a" 1 [2, 3] (by norm_num)
      (by simp [List.chain'_cons]; norm_num)
    simpa using hs

/-- C7 counterexample: with no frontend files and run coverage 85 the
`ui-components` region does not carry the run coverage verbatim — its coverage
is forced to 0 by the file-count gate. -/
theorem region_coverage_not_verbatim :
    ¬ (((create_regions probeZero ⟨10, 10, 0⟩ ⟨0, 8, 5, 2⟩ 85 0).lookup
        "ui-components").map BrainRegion.coverage = some 85) := by
  decide

/-- C7 amended: for in-range run coverage, the `tests` region carries the
run coverage and test counts verbatim; `ui-components` and `core-logic` carry
the test counts verbatim and the run coverage only when their file count is
positive (0 otherwise); the shared status rule is failing tests → Error, else
coverage below 50 → Warning, else Healthy; documentation maps by doc score at
least 80 → Healthy else Warning; api-integration maps by integration score at
least 50 → Healthy else Offline. -/
theorem region_construction_amended (p : FsProbe) (tr : TestResults)
    (fc : FileCounts) (cov now : ℚ) (h0 : 0 ≤ cov) (h100 : cov ≤ 100) :
    (create_regions p tr fc cov now).lookup "ui-components" =
      some { status := determine_region_status cov tr
             coverage := if fc.frontend > 0 then cov else 0
             test_count := tr.total, passing_tests := tr.passed
             failing_tests := tr.failed, file_count := fc.frontend
             last_modified := some now } ∧
    (create_regions p tr fc cov now).lookup "core-logic" =
      some { status := determine_region_status cov tr
             coverage := if fc.backend > 0 then cov else 0
             test_count := tr.total, passing_tests := tr.passed
             failing_tests := tr.failed, file_count := fc.backend
             last_modified := some now } ∧
    (create_regions p tr fc cov now).lookup "tests" =
      some { status := determine_region_status cov tr
             coverage := cov
             test_count := tr.total, passing_tests := tr.passed
             failing_tests := tr.failed, file_count := fc.tests
             last_modified := some now } ∧
    ((create_regions p tr fc cov now).lookup "documentation").map
        BrainRegion.status =
      some (if calculate_documentation_score p ≥ 80 then .healthy else .warning) ∧
    ((create_regions p tr fc cov now).lookup "api-integration").map
        BrainRegion.status =
      some (if calculate_integration_score p ≥ 50 then .healthy else .offline) ∧
    (∀ (c : ℚ) (tr' : TestResults), determine_region_status c tr' =
      if tr'.failed > 0 then .error else if c < 50 then .warning else .healthy) := by
  refine ⟨?_, ?_, ?_, ?_, ?_, ?_⟩
  · rw [show (create_regions p tr fc cov now).lookup "ui-components" =
        some (mkBrainRegion (determine_region_status cov tr)
          (if fc.frontend > 0 then cov else 0) tr.total tr.passed tr.failed
          fc.frontend (some now)) from rfl]
    by_cases hf : fc.frontend > 0
    · simp [hf, mkBrainRegion, validate_coverage_id cov h0 h100]
    · norm_num [hf, mkBrainRegion, validate_coverage]
  · rw [show (create_regions p tr fc cov now).lookup "core-logic" =
        some (mkBrainRegion (determine_region_status cov tr)
          (if fc.backend > 0 then cov else 0) tr.total tr.passed tr.failed
          fc.backend (some now)) from rfl]
    by_cases hf : fc.backend > 0
    · simp [hf, mkBrainRegion, validate_coverage_id cov h0 h100]
    · norm_num [hf, mkBrainRegion, validate_coverage]
  · rw [show (create_regions p tr fc cov now).lookup "tests" =
        some (mkBrainRegion (determine_region_status cov tr) cov tr.total
          tr.passed tr.failed fc.tests (some now)) from rfl]
    simp [mkBrainRegion, validate_coverage_id cov h0 h100]
  · rw [show (create_regions p tr fc cov now).lookup "documentation" =
        some (mkBrainRegion
          (if calculate_documentation_score p ≥ 80 then .healthy else .warning)
          (calculate_documentation_score p) 0 0 0 p.md_file_count
          (some now)) from rfl]
    simp [mkBrainRegion]
  · rw [show (create_regions p tr fc cov now).lookup "api-integration" =
        some (mkBrainRegion
          (if calculate_integration_score p ≥ 50 then .healthy else .offline)
          (calculate_integration_score p) 0 0 0 (count_mcp_providers p)
          (some now)) from rfl]
    simp [mkBrainRegion]
  · intro c tr'
    unfold determine_region_status
    split_ifs <;> rfl

/-- Witness for C7 amended at coverage 85 with no frontend files: the
`ui-components` coverage is gated to 0 while the `tests` region carries 85
verbatim. -/
theorem region_construction_amended_witness :
    (create_regions probeZero ⟨10, 10, 0⟩ ⟨0, 8, 5, 2⟩ 85 0).lookup
        "ui-components" =
      some { status := determine_region_status 85 ⟨10, 10, 0⟩
             coverage := 0, test_count := 10, passing_tests := 10
             failing_tests := 0, file_count := 0, last_modified := some 0 } ∧
    (create_regions probeZero ⟨10, 10, 0⟩ ⟨0, 8, 5, 2⟩ 85 0).lookup "tests" =
      some { status := determine_region_status 85 ⟨10, 10, 0⟩
             coverage := 85, test_count := 10, passing_tests := 10
             failing_tests := 0, file_count := 5, last_modified := some 0 } := by
  have h := region_construction_amended probeZero ⟨10, 10, 0⟩ ⟨0, 8, 5, 2⟩ 85 0
    (by norm_num) (by norm_num)
  refine ⟨?_, ?_⟩
  · have h1 := h.1
    simpa using h1
  · have h3 := h.2.2.1
    simpa using h3

/-- C8 counterexample: the status default-constructed at startup when the
status file is missing has an empty regions map, not the six fixed keys. -/
theorem six_region_keys_counterexample :
    (load_status StatusFile.missing).regions.map Prod.fst ≠ sixRegionKeys := by
  decide

/-- C8 amended: every status produced by a scoring cycle carries exactly the
six fixed region keys in order, while the status loaded at startup from a
missing or corrupt file is the default-constructed one whose regions map is
empty. -/
theorem six_region_keys_amended :
    (∀ (p : FsProbe) (cov : ℚ) (tr : TestResults) (fc : FileCounts) (now : ℚ),
      (calculate_neural_status p cov tr fc now).regions.map Prod.fst =
        sixRegionKeys) ∧
    (load_status StatusFile.missing).regions = [] ∧
    (load_status StatusFile.corrupt).regions = [] := by
  exact ⟨fun p cov tr fc now => rfl, rfl, rfl⟩

/-- C9: when every tracked metric is equal or improved — illumination not
lower, each matched region's coverage not lower, status rank not lower and
failing-test count not higher — the regression detector returns no alerts. -/
theorem no_regression_on_improvement (history : List LastData)
    (last : LastData) (current : NeuralStatus)
    (hlast : history.getLast? = some last)
    (hill : last.illumination ≤ current.illumination)
    (hreg : ∀ kv ∈ current.regions, ∀ lr,
      last.regions.lookup kv.1 = some lr →
      lr.coverage ≤ kv.2.coverage ∧
      status_hierarchy lr.status ≤ status_hierarchy kv.2.status.value ∧
      kv.2.failing_tests ≤ lr.failing_tests) :
    detect_regressions history current = [] := by
  unfold detect_regressions
  rw [hlast]
  have hi : check_illumination_regression current last = [] := by
    unfold check_illumination_regression
    rw [if_neg (by push_neg; linarith)]
  have hr : check_region_regressions current last = [] := by
    unfold check_region_regressions
    rw [List.flatten_eq_nil_iff]
    intro x hx
    simp only [List.mem_map] at hx
    obtain ⟨kv, hkv, rfl⟩ := hx
    cases hlr : last.regions.lookup kv.1 with
    | none => rfl
    | some lr =>
      obtain ⟨h1, h2, _⟩ := hreg kv hkv lr hlr
      exact region_regression_alerts_nil kv.1 kv.2 lr h1 h2
  have ht : check_test_regressions current last = [] := by
    unfold check_test_regressions
    rw [List.flatten_eq_nil_iff]
    intro x hx
    simp only [List.mem_map] at hx
    obtain ⟨kv, hkv, rfl⟩ := hx
    cases hlr : last.regions.lookup kv.1 with
    | none => rfl
    | some lr =>
      obtain ⟨_, _, h3⟩ := hreg kv hkv lr hlr
      exact if_neg (by omega)
  simp [hi, hr, ht]

/-- Witness for C9 on a concrete improved snapshot: illumination rises from
one half to three quarters with the region otherwise unchanged, and no alert
is emitted. -/
theorem no_regression_on_improvement_witness :
    detect_regressions [baselineSnapshot] improvedStatus = [] := by
  refine no_regression_on_improvement [baselineSnapshot] baselineSnapshot
    improvedStatus rfl (by norm_num [baselineSnapshot, improvedStatus]) ?_
  intro kv hkv lr hlr
  simp only [improvedStatus, List.mem_cons, List.not_mem_nil, or_false] at hkv
  subst hkv
  simp [baselineSnapshot, List.lookup] at hlr
  subst hlr
  refine ⟨by norm_num, by norm_num [status_hierarchy, RegionStatus.value], by norm_num⟩

/-- C10: the regression detector returns the empty alert list whenever the
effective history is empty — the history file is missing, unreadable or
non-list JSON, or no snapshot was ever saved. -/
theorem empty_history_no_alerts :
    (∀ current : NeuralStatus,
      detect_regressions (load_history HistoryFile.missing) current = []) ∧
    (∀ current : NeuralStatus,
      detect_regressions (load_history HistoryFile.unreadable) current = []) ∧
    (∀ current : NeuralStatus,
      detect_regressions (load_history HistoryFile.nonList) current = []) ∧
    (∀ current : NeuralStatus, detect_regressions [] current = []) := by
  exact ⟨fun _ => rfl, fun _ => rfl, fun _ => rfl, fun _ => rfl⟩

end NeuralCore
